import Mathlib

/-!
Verification of the multi-agent pipeline core (requirement analysis,
deployment-output parsing, retry policy, documentation stage, prompt
composition) against its natural-language specification.

Strings from the Python source are embedded as `List Char`; every Python
string primitive used by the code (`strip`, `find`, `rfind`, `in`,
slicing, `join`) is given an executable Lean counterpart with Python
semantics.  Modelling notes: Python
handles the full Unicode whitespace and word-character classes, while the
embedding uses the ASCII subsets, which cover every pattern constant and
every test string appearing in the repository.
-/

/-- Python `str.strip()`: drop whitespace from both ends. -/
def pyStrip (l : List Char) : List Char :=
  ((l.dropWhile Char.isWhitespace).reverse.dropWhile Char.isWhitespace).reverse

/-- First index at which `pat` occurs as a contiguous substring, if any. -/
def findSub (pat : List Char) : List Char → Option Nat
  | [] => if pat = [] then some 0 else none
  | c :: t => if pat.isPrefixOf (c :: t) then some 0 else (findSub pat t).map (· + 1)

/-- Python `content.find(pat)`: first index of `pat`, or `-1`. -/
def pyFindI (content pat : List Char) : Int :=
  match findSub pat content with
  | some i => (i : Int)
  | none => -1

/-- Python `content.find(pat, start)` for `start ≥ 0`. -/
def pyFindFromI (content pat : List Char) (start : Int) : Int :=
  match findSub pat (content.drop start.toNat) with
  | some i => (i : Int) + start
  | none => -1

/-- Python `content.rfind(c)` for a single character: last index or `-1`. -/
def pyRFindChar (content : List Char) (c : Char) : Int :=
  match findSub [c] content.reverse with
  | some j => (content.length : Int) - 1 - (j : Int)
  | none => -1

/-- Python `pat in content` (substring containment). -/
def containsSub (content pat : List Char) : Bool :=
  (findSub pat content).isSome

/-- Python slice `content[a:b]` for `0 ≤ a`. -/
def pySliceII (content : List Char) (a b : Int) : List Char :=
  (content.drop a.toNat).take (b - a).toNat

/-- Python slice `content[a:]` for `0 ≤ a`. -/
def pySliceFrom (content : List Char) (a : Int) : List Char :=
  content.drop a.toNat

/-! ## Word-boundary pattern matching

Each vague-language / expected-specification regex in
`RequirementAnalysisAgent._detect_ambiguity` has the shape
`\b(alt1|alt2|...)\b` searched case-insensitively.  Such a pattern is
embedded as its list of alternatives (given lowercase); a search succeeds
when some alternative occurs in the text at a position bounded on both
sides by a non-word character or the text edge. -/

/-- Python regex `\w` restricted to ASCII: letters, digits, underscore. -/
def isWordChar (c : Char) : Bool :=
  c.isAlpha || c.isDigit || c == '_'

/-- Case-insensitive prefix strip: if lowering `l` starts with `a`, return
the rest of `l`. -/
def stripCIPrefix : List Char → List Char → Option (List Char)
  | [], l => some l
  | _ :: _, [] => none
  | a :: as, c :: cs => if c.toLower = a then stripCIPrefix as cs else none

/-- The right word-boundary check: the remainder must be empty or start
with a non-word character. -/
def rightBoundOk : List Char → Bool
  | [] => true
  | c :: _ => !isWordChar c

/-- The left word-boundary check against the character just before the
candidate position (`none` at the start of the text). -/
def leftBoundOk : Option Char → Bool
  | none => true
  | some c => !isWordChar c

/-- Left-boundary check for a candidate occurrence preceded by `pre`,
where `prev` is the character just before `pre` (if any). -/
def preBoundOk : Option Char → List Char → Bool
  | prev, [] => leftBoundOk prev
  | _, c :: pre => preBoundOk (some c) pre

/-- Does some alternative match at the head of `l` with a right boundary? -/
def hitAt (alts : List (List Char)) (l : List Char) : Bool :=
  alts.any fun a =>
    match stripCIPrefix a l with
    | some rest => rightBoundOk rest
    | none => false

/-- Scan the text, tracking the previous character for the left boundary. -/
def matchScan (alts : List (List Char)) : Option Char → List Char → Bool
  | prev, [] => leftBoundOk prev && hitAt alts []
  | prev, c :: t => (leftBoundOk prev && hitAt alts (c :: t)) || matchScan alts (some c) t

/-- `re.search` of the word-boundary alternation over the whole text. -/
def wordMatchB (alts : List (List Char)) (text : List Char) : Bool :=
  matchScan alts none text

/-- Declarative reading of `wordMatchB`: some alternative occurs as a
substring, case-insensitively, with word boundaries on both sides. -/
def WordMatch (alts : List (List Char)) (text : List Char) : Prop :=
  ∃ pre w post, text = pre ++ w ++ post ∧ w.map Char.toLower ∈ alts ∧
    (∀ c ∈ pre.getLast?, isWordChar c = false) ∧ rightBoundOk post = true

/-- The seven vague-language patterns of `_detect_ambiguity`, each as its
alternative set. -/
def vagueTerms : List (List (List Char)) :=
  [["user-friendly".data, "user friendly".data],
   ["fast".data, "quick".data, "quickly".data],
   ["good".data, "better".data, "best".data],
   ["easy".data, "simple".data, "easily".data],
   ["nice".data, "nice-looking".data, "pretty".data],
   ["some".data, "various".data, "multiple".data, "several".data],
   ["should".data, "could".data, "might".data, "may".data]]

/-- The four expected-specification patterns of `_detect_ambiguity`. -/
def missingPatterns : List (List (List Char)) :=
  [["input".data, "output".data],
   ["error".data, "exception".data, "handle".data],
   ["platform".data, "os".data, "operating system".data],
   ["performance".data, "speed".data, "time".data]]

/-- Number of vague patterns matching at least once. -/
def vagueCount (text : List Char) : Nat :=
  vagueTerms.countP fun p => wordMatchB p text

/-- Number of expected-specification patterns matching nowhere. -/
def missingCount (text : List Char) : Nat :=
  missingPatterns.countP fun p => !wordMatchB p text

/-- Result record of `RequirementAnalysisAgent._detect_ambiguity`. -/
structure AmbiguityVerdict where
  is_ambiguous : Bool
  vague_terms_found : Nat
  missing_specifications : Nat
  input_length : Nat
  deriving Repr, DecidableEq

/-- `RequirementAnalysisAgent._detect_ambiguity` (requirement_agent.py,
lines 180-217). -/
def detectAmbiguity (user_input : List Char) : AmbiguityVerdict :=
  { is_ambiguous :=
      decide (2 < vagueCount user_input) || decide (2 < missingCount user_input) ||
        decide ((pyStrip user_input).length < 50)
    vague_terms_found := vagueCount user_input
    missing_specifications := missingCount user_input
    input_length := user_input.length }

/-! ## Correctness of the word-boundary matcher -/

lemma stripCIPrefix_eq_some {a l rest : List Char} :
    stripCIPrefix a l = some rest ↔ ∃ w, l = w ++ rest ∧ w.map Char.toLower = a := by
  induction a generalizing l with
  | nil =>
    simp only [stripCIPrefix, Option.some.injEq]
    constructor
    · rintro rfl; exact ⟨[], by simp⟩
    · rintro ⟨w, rfl, hw⟩
      have : w = [] := by simpa using congrArg List.length hw
      simp [this]
  | cons x as ih =>
    cases l with
    | nil =>
      simp only [stripCIPrefix]
      constructor
      · intro h; exact absurd h (by simp)
      · rintro ⟨w, hw, hmap⟩
        cases w with
        | nil => simp at hmap
        | cons c cs => simp at hw
    | cons c cs =>
      simp only [stripCIPrefix]
      by_cases hc : c.toLower = x
      · rw [if_pos hc, ih]
        constructor
        · rintro ⟨w, rfl, hw⟩
          exact ⟨c :: w, by simp [hw, hc]⟩
        · rintro ⟨w, hw, hmap⟩
          cases w with
          | nil => simp at hmap
          | cons d ds =>
            simp only [List.cons_append, List.cons.injEq] at hw
            obtain ⟨rfl, hrest⟩ := hw
            simp only [List.map_cons, List.cons.injEq] at hmap
            exact ⟨ds, hrest, hmap.2⟩
      · rw [if_neg hc]
        constructor
        · intro h; exact absurd h (by simp)
        · rintro ⟨w, hw, hmap⟩
          cases w with
          | nil => simp at hmap
          | cons d ds =>
            simp only [List.cons_append, List.cons.injEq] at hw
            simp only [List.map_cons, List.cons.injEq] at hmap
            exact absurd (hw.1 ▸ hmap.1) hc

lemma hitAt_eq_true {alts : List (List Char)} {l : List Char} :
    hitAt alts l = true ↔
      ∃ w post, l = w ++ post ∧ w.map Char.toLower ∈ alts ∧ rightBoundOk post = true := by
  simp only [hitAt, List.any_eq_true]
  constructor
  · rintro ⟨a, ha, hm⟩
    cases hs : stripCIPrefix a l with
    | none => rw [hs] at hm; exact absurd hm (by simp)
    | some rest =>
      rw [hs] at hm
      obtain ⟨w, rfl, hw⟩ := stripCIPrefix_eq_some.mp hs
      exact ⟨w, rest, rfl, hw ▸ ha, hm⟩
  · rintro ⟨w, post, rfl, hmem, hb⟩
    refine ⟨w.map Char.toLower, hmem, ?_⟩
    have h2 : stripCIPrefix (w.map Char.toLower) (w ++ post) = some post :=
      stripCIPrefix_eq_some.mpr ⟨w, rfl, rfl⟩
    rw [h2]; exact hb

lemma matchScan_eq_true {alts : List (List Char)} :
    ∀ (prev : Option Char) (l : List Char),
      matchScan alts prev l = true ↔
        ∃ pre w post, l = pre ++ w ++ post ∧ w.map Char.toLower ∈ alts ∧
          preBoundOk prev pre = true ∧ rightBoundOk post = true := by
  intro prev l
  induction l generalizing prev with
  | nil =>
    simp only [matchScan, Bool.and_eq_true, hitAt_eq_true]
    constructor
    · rintro ⟨hleft, w, post, hl, hmem, hb⟩
      have hw : w = [] := by cases w <;> simp_all
      have hp : post = [] := by subst hw; simpa using hl
      exact ⟨[], w, post, by simp [hl], hmem, by simpa [preBoundOk], hb⟩
    · rintro ⟨pre, w, post, hl, hmem, hpre, hb⟩
      have hpre2 : pre = [] := by
        cases pre <;> simp_all
      subst hpre2
      simp only [List.nil_append] at hl
      exact ⟨by simpa [preBoundOk] using hpre, w, post, hl, hmem, hb⟩
  | cons c t ih =>
    simp only [matchScan, Bool.or_eq_true, Bool.and_eq_true, hitAt_eq_true, ih]
    constructor
    · rintro (⟨hleft, w, post, hl, hmem, hb⟩ | ⟨pre, w, post, hl, hmem, hpre, hb⟩)
      · exact ⟨[], w, post, by simp [hl], hmem, by simpa [preBoundOk], hb⟩
      · exact ⟨c :: pre, w, post, by simp [hl], hmem, hpre, hb⟩
    · rintro ⟨pre, w, post, hl, hmem, hpre, hb⟩
      cases pre with
      | nil =>
        left
        simp only [List.nil_append] at hl
        exact ⟨by simpa [preBoundOk] using hpre, w, post, hl, hmem, hb⟩
      | cons d ds =>
        right
        simp only [List.cons_append, List.cons.injEq] at hl
        obtain ⟨rfl, hrest⟩ := hl
        exact ⟨ds, w, post, hrest, hmem, hpre, hb⟩

lemma preBoundOk_none_iff (pre : List Char) :
    preBoundOk none pre = true ↔ ∀ c ∈ pre.getLast?, isWordChar c = false := by
  induction pre with
  | nil => simp [preBoundOk, leftBoundOk]
  | cons c cs ih =>
    cases cs with
    | nil => simp [preBoundOk, leftBoundOk]
    | cons d ds =>
      rw [List.getLast?_cons_cons]
      constructor
      · intro h
        have step : ∀ (p : Option Char) (l : List Char), l ≠ [] →
            preBoundOk p l = preBoundOk none l := by
          intro p l hl
          cases l with
          | nil => exact absurd rfl hl
          | cons x xs => rfl
        rw [show preBoundOk none (c :: d :: ds) = preBoundOk (some c) (d :: ds) from rfl,
          step (some c) (d :: ds) (by simp)] at h
        exact ih.mp h
      · intro h
        have step : preBoundOk (some c) (d :: ds) = preBoundOk none (d :: ds) := rfl
        rw [show preBoundOk none (c :: d :: ds) = preBoundOk (some c) (d :: ds) from rfl, step]
        exact ih.mpr h

/-- The executable matcher agrees with the declarative occurrence
predicate. -/
lemma wordMatchB_iff (alts : List (List Char)) (text : List Char) :
    wordMatchB alts text = true ↔ WordMatch alts text := by
  unfold wordMatchB WordMatch
  rw [matchScan_eq_true]
  constructor
  · rintro ⟨pre, w, post, hl, hmem, hpre, hb⟩
    exact ⟨pre, w, post, hl, hmem, (preBoundOk_none_iff pre).mp hpre, hb⟩
  · rintro ⟨pre, w, post, hl, hmem, hpre, hb⟩
    exact ⟨pre, w, post, hl, hmem, (preBoundOk_none_iff pre).mpr hpre, hb⟩

/-- Dropping a prefix never lengthens a list. -/
lemma dropWhile_length_le (p : Char → Bool) (l : List Char) :
    (l.dropWhile p).length ≤ l.length := by
  induction l with
  | nil => simp
  | cons c t ih =>
    rw [List.dropWhile_cons]
    by_cases h : p c = true
    · simp only [h, if_pos rfl]
      exact le_trans ih (Nat.le_succ _)
    · simp [h]

/-- C2: the ambiguity detector reports `is_ambiguous` exactly when more
than two vague-language patterns match, or more than two
expected-specification patterns are absent, or the stripped input is
shorter than 50 characters; and a pattern *matching* means some
alternative occurs in the text, case-insensitively, delimited by word
boundaries. -/
theorem detectAmbiguity_flag_iff (text : List Char) :
    ((detectAmbiguity text).is_ambiguous = true ↔
      2 < vagueCount text ∨ 2 < missingCount text ∨ (pyStrip text).length < 50)
    ∧ ∀ p, (wordMatchB p text = true ↔ WordMatch p text) := by
  refine ⟨?_, fun p => wordMatchB_iff p text⟩
  simp [detectAmbiguity, or_assoc]

/-- C8: any input whose raw length is below 50 characters is flagged as
ambiguous, whatever the vague-term and missing-specification counts are;
stripping only shortens the text, so the length branch always fires. -/
theorem detectAmbiguity_short_input (text : List Char) (h : text.length < 50) :
    (detectAmbiguity text).is_ambiguous = true := by
  have hs : (pyStrip text).length ≤ text.length := by
    unfold pyStrip
    calc ((text.dropWhile Char.isWhitespace).reverse.dropWhile Char.isWhitespace).reverse.length
        = ((text.dropWhile Char.isWhitespace).reverse.dropWhile Char.isWhitespace).length := by
          rw [List.length_reverse]
      _ ≤ (text.dropWhile Char.isWhitespace).reverse.length := dropWhile_length_le _ _
      _ = (text.dropWhile Char.isWhitespace).length := by rw [List.length_reverse]
      _ ≤ text.length := dropWhile_length_le _ _
  have : (pyStrip text).length < 50 := lt_of_le_of_lt hs h
  simp [detectAmbiguity, this]

/-- Witness for C8 at the concrete input "Build an app" (12 characters). -/
theorem detectAmbiguity_short_input_witness :
    (detectAmbiguity "Build an app".data).is_ambiguous = true :=
  detectAmbiguity_short_input _ (by decide)

/-! ## Deployment output parsing

`DeploymentAgent._parse_deployment_output` (deployment_agent.py, lines
214-262) extracts four labeled sections and backfills canned defaults for
any section that could not be extracted. -/

/-- The section marker `[REQUIREMENTS]` (14 characters). -/
def reqMarker : List Char :=
  ['[', 'R', 'E', 'Q', 'U', 'I', 'R', 'E', 'M', 'E', 'N', 'T', 'S', ']']

/-- The section marker `[SETUP_INSTRUCTIONS]` (20 characters). -/
def setupMarker : List Char :=
  ['[', 'S', 'E', 'T', 'U', 'P', '_', 'I', 'N', 'S', 'T', 'R', 'U', 'C', 'T', 'I', 'O', 'N', 'S', ']']

/-- The section marker `[GITHUB_PUSH]` (13 characters). -/
def githubMarker : List Char :=
  ['[', 'G', 'I', 'T', 'H', 'U', 'B', '_', 'P', 'U', 'S', 'H', ']']

/-- The section marker `[HOSTING_PLATFORMS]` (19 characters). -/
def hostMarker : List Char :=
  ['[', 'H', 'O', 'S', 'T', 'I', 'N', 'G', '_', 'P', 'L', 'A', 'T', 'F', 'O', 'R', 'M', 'S', ']']

/-- `DeploymentAgent._generate_default_requirements`. -/
def defaultRequirements : List Char :=
  "python-dotenv>=1.0.0\npyautogen>=0.2.0\nopenai>=1.0.0\nstreamlit>=1.28.0\npytest>=7.4.0".data

/-- `DeploymentAgent._generate_default_setup`. -/
def defaultSetup : List Char :=
  ("1. Install Python 3.10 or higher\n2. Create a virtual environment: python -m venv venv\n3. Activate the virtual environment:\n   - Windows: venv\\Scripts\\activate\n   - Linux/Mac: source venv/bin/activate\n4. Install dependencies: pip install -r requirements.txt\n5. Create a .env file with your OPENAI_API_KEY\n6. Run the application: streamlit run app.py").data

/-- `DeploymentAgent._generate_default_github_push`. -/
def defaultGithubPush : List Char :=
  ("1. Initialize git repository:\n   git init\n\n2. Create .gitignore file with:\n   __pycache__/\n   *.pyc\n   venv/\n   .env\n   *.log\n   .DS_Store\n\n3. Add files to git:\n   git add .\n\n4. Commit files:\n   git commit -m \"Initial commit\"\n\n5. Create a new repository on GitHub (via web interface)\n\n6. Add remote repository:\n   git remote add origin https://github.com/yourusername/your-repo-name.git\n\n7. Push to GitHub:\n   git branch -M main\n   git push -u origin main").data

/-- `DeploymentAgent._generate_default_hosting_platforms`. -/
def defaultHostingPlatforms : List Char :=
  ("Recommended Hosting Platforms:\n\n1. **Heroku**:\n   - Suitable for: Web applications, APIs\n   - Why: Easy deployment, free tier available, supports Python\n   - Deployment: Use Heroku CLI or connect GitHub repository\n\n2. **Railway**:\n   - Suitable for: Web apps, APIs, databases\n   - Why: Simple deployment, automatic builds from GitHub, good for Python projects\n   - Deployment: Connect GitHub repo, auto-deploys on push\n\n3. **Render**:\n   - Suitable for: Web services, static sites, APIs\n   - Why: Free tier, easy setup, supports Python\n   - Deployment: Connect GitHub, automatic deployments").data

/-- The result record of `_parse_deployment_output`. -/
structure DeploymentConfig where
  requirements : List Char
  setup_instructions : List Char
  github_push : List Char
  hosting_platforms : List Char
  deriving Repr, DecidableEq

/-- Lines 221-227: the `[REQUIREMENTS]` section, ending at
`[SETUP_INSTRUCTIONS]` or, failing that, `[GITHUB_PUSH]`. -/
def extractRequirementsSection (content : List Char) : List Char :=
  if containsSub content reqMarker then
    let reqStart : Int := pyFindI content reqMarker + (reqMarker.length : Int)
    let reqEnd0 : Int := pyFindFromI content setupMarker reqStart
    let reqEnd : Int :=
      if reqEnd0 = -1 then pyFindFromI content githubMarker reqStart else reqEnd0
    if reqEnd > reqStart then pyStrip (pySliceII content reqStart reqEnd) else []
  else []

/-- Lines 229-233: the `[SETUP_INSTRUCTIONS]` section, ending at
`[GITHUB_PUSH]`. -/
def extractSetupSection (content : List Char) : List Char :=
  if containsSub content setupMarker then
    let setupStart : Int := pyFindI content setupMarker + (setupMarker.length : Int)
    let setupEnd : Int := pyFindFromI content githubMarker setupStart
    if setupEnd > setupStart then pyStrip (pySliceII content setupStart setupEnd) else []
  else []

/-- Lines 235-239: the `[GITHUB_PUSH]` section, ending at
`[HOSTING_PLATFORMS]`. -/
def extractGithubSection (content : List Char) : List Char :=
  if containsSub content githubMarker then
    let githubStart : Int := pyFindI content githubMarker + (githubMarker.length : Int)
    let githubEnd : Int := pyFindFromI content hostMarker githubStart
    if githubEnd > githubStart then pyStrip (pySliceII content githubStart githubEnd) else []
  else []

/-- Lines 241-243: the `[HOSTING_PLATFORMS]` section, running to the end
of the text. -/
def extractHostingSection (content : List Char) : List Char :=
  if containsSub content hostMarker then
    pyStrip (pySliceFrom content (pyFindI content hostMarker + (hostMarker.length : Int)))
  else []

/-- `DeploymentAgent._parse_deployment_output`: extract the four sections
and substitute the canned default for any empty one (lines 245-262). -/
def parseDeploymentOutput (content : List Char) : DeploymentConfig :=
  let requirements := extractRequirementsSection content
  let setup_instructions := extractSetupSection content
  let github_push := extractGithubSection content
  let hosting_platforms := extractHostingSection content
  { requirements := if requirements = [] then defaultRequirements else requirements
    setup_instructions := if setup_instructions = [] then defaultSetup else setup_instructions
    github_push := if github_push = [] then defaultGithubPush else github_push
    hosting_platforms :=
      if hosting_platforms = [] then defaultHostingPlatforms else hosting_platforms }

/-! ## Structural lemmas about substring search -/

lemma findSub_self_append (m b : List Char) : findSub m (m ++ b) = some 0 := by
  cases m with
  | nil =>
    cases b with
    | nil => simp [findSub]
    | cons c t => simp [findSub, List.isPrefixOf]
  | cons x xs =>
    have h : (x :: xs).isPrefixOf ((x :: xs) ++ b) = true :=
      List.isPrefixOf_iff_prefix.mpr (List.prefix_append _ _)
    simp [findSub, h]

lemma findSub_shift (x : Char) (pt : List Char) (a b : List Char) (ha : x ∉ a) :
    findSub (x :: pt) (a ++ b) = (findSub (x :: pt) b).map (· + a.length) := by
  induction a with
  | nil =>
    simp only [List.nil_append, List.length_nil]
    cases findSub (x :: pt) b <;> simp
  | cons c t ih =>
    have hc : x ≠ c := fun h => ha (h ▸ List.mem_cons_self c t)
    have ht : x ∉ t := fun h => ha (List.mem_cons_of_mem c h)
    have hpre : (x :: pt).isPrefixOf (c :: (t ++ b)) = false := by
      simp [List.isPrefixOf]
      intro h
      exact absurd h hc
    rw [List.cons_append, findSub, hpre]
    simp only [Bool.false_eq_true, if_false, ih ht]
    cases findSub (x :: pt) b <;> simp [Nat.add_assoc]

lemma findSub_none_of_not_mem {x : Char} {pt : List Char} (a : List Char) (ha : x ∉ a) :
    findSub (x :: pt) a = none := by
  have h := findSub_shift x pt a [] ha
  rw [List.append_nil] at h
  rw [h]
  simp [findSub]

lemma findSub_skip₂ {p2 : Char} {pt : List Char} {m2 : Char} (mt rest : List Char)
    (hne : p2 ≠ m2) (hm2 : m2 ≠ '[') (hmt : '[' ∉ mt) :
    findSub ('[' :: p2 :: pt) (('[' :: m2 :: mt) ++ rest) =
      (findSub ('[' :: p2 :: pt) rest).map (· + (mt.length + 2)) := by
  have h1 : ('[' :: p2 :: pt).isPrefixOf ('[' :: m2 :: (mt ++ rest)) = false := by
    simp [List.isPrefixOf]
    intro h
    exact absurd h hne
  have h2 : ('[' :: p2 :: pt).isPrefixOf (m2 :: (mt ++ rest)) = false := by
    simp [List.isPrefixOf]
    intro h
    exact absurd h.symm hm2
  rw [List.cons_append, List.cons_append, findSub, h1]
  simp only [Bool.false_eq_true, if_false]
  rw [findSub, h2]
  simp only [Bool.false_eq_true, if_false]
  rw [findSub_shift '[' (p2 :: pt) mt rest hmt]
  cases findSub ('[' :: p2 :: pt) rest <;> simp
  omega

lemma findSub_setup_skip_req (X : List Char) :
    findSub setupMarker (reqMarker ++ X) = (findSub setupMarker X).map (· + 14) := by
  rw [show reqMarker = '[' :: 'R' :: ['E', 'Q', 'U', 'I', 'R', 'E', 'M', 'E', 'N', 'T', 'S', ']'] from rfl,
    show setupMarker = '[' :: 'S' :: ['E', 'T', 'U', 'P', '_', 'I', 'N', 'S', 'T', 'R', 'U', 'C', 'T', 'I', 'O', 'N', 'S', ']'] from rfl,
    findSub_skip₂ _ _ (by decide) (by decide) (by decide)]
  rfl

lemma findSub_github_skip_req (X : List Char) :
    findSub githubMarker (reqMarker ++ X) = (findSub githubMarker X).map (· + 14) := by
  rw [show reqMarker = '[' :: 'R' :: ['E', 'Q', 'U', 'I', 'R', 'E', 'M', 'E', 'N', 'T', 'S', ']'] from rfl,
    show githubMarker = '[' :: 'G' :: ['I', 'T', 'H', 'U', 'B', '_', 'P', 'U', 'S', 'H', ']'] from rfl,
    findSub_skip₂ _ _ (by decide) (by decide) (by decide)]
  rfl

lemma findSub_github_skip_setup (X : List Char) :
    findSub githubMarker (setupMarker ++ X) = (findSub githubMarker X).map (· + 20) := by
  rw [show setupMarker = '[' :: 'S' :: ['E', 'T', 'U', 'P', '_', 'I', 'N', 'S', 'T', 'R', 'U', 'C', 'T', 'I', 'O', 'N', 'S', ']'] from rfl,
    show githubMarker = '[' :: 'G' :: ['I', 'T', 'H', 'U', 'B', '_', 'P', 'U', 'S', 'H', ']'] from rfl,
    findSub_skip₂ _ _ (by decide) (by decide) (by decide)]
  rfl

lemma findSub_host_skip_req (X : List Char) :
    findSub hostMarker (reqMarker ++ X) = (findSub hostMarker X).map (· + 14) := by
  rw [show reqMarker = '[' :: 'R' :: ['E', 'Q', 'U', 'I', 'R', 'E', 'M', 'E', 'N', 'T', 'S', ']'] from rfl,
    show hostMarker = '[' :: 'H' :: ['O', 'S', 'T', 'I', 'N', 'G', '_', 'P', 'L', 'A', 'T', 'F', 'O', 'R', 'M', 'S', ']'] from rfl,
    findSub_skip₂ _ _ (by decide) (by decide) (by decide)]
  rfl

lemma findSub_host_skip_setup (X : List Char) :
    findSub hostMarker (setupMarker ++ X) = (findSub hostMarker X).map (· + 20) := by
  rw [show setupMarker = '[' :: 'S' :: ['E', 'T', 'U', 'P', '_', 'I', 'N', 'S', 'T', 'R', 'U', 'C', 'T', 'I', 'O', 'N', 'S', ']'] from rfl,
    show hostMarker = '[' :: 'H' :: ['O', 'S', 'T', 'I', 'N', 'G', '_', 'P', 'L', 'A', 'T', 'F', 'O', 'R', 'M', 'S', ']'] from rfl,
    findSub_skip₂ _ _ (by decide) (by decide) (by decide)]
  rfl

lemma findSub_host_skip_github (X : List Char) :
    findSub hostMarker (githubMarker ++ X) = (findSub hostMarker X).map (· + 13) := by
  rw [show githubMarker = '[' :: 'G' :: ['I', 'T', 'H', 'U', 'B', '_', 'P', 'U', 'S', 'H', ']'] from rfl,
    show hostMarker = '[' :: 'H' :: ['O', 'S', 'T', 'I', 'N', 'G', '_', 'P', 'L', 'A', 'T', 'F', 'O', 'R', 'M', 'S', ']'] from rfl,
    findSub_skip₂ _ _ (by decide) (by decide) (by decide)]
  rfl

lemma findSub_shift_marker (m : List Char) (hm : ∃ m2 mt, m = '[' :: m2 :: mt)
    (a b : List Char) (ha : '[' ∉ a) :
    findSub m (a ++ b) = (findSub m b).map (· + a.length) := by
  obtain ⟨m2, mt, rfl⟩ := hm
  exact findSub_shift '[' (m2 :: mt) a b ha

lemma findSub_none_marker (m : List Char) (hm : ∃ m2 mt, m = '[' :: m2 :: mt)
    (a : List Char) (ha : '[' ∉ a) :
    findSub m a = none := by
  obtain ⟨m2, mt, rfl⟩ := hm
  exact findSub_none_of_not_mem a ha

lemma extractReq_eq (content : List Char) :
    extractRequirementsSection content =
      (match findSub reqMarker content with
       | none => []
       | some i =>
         match findSub setupMarker (content.drop (i + 14)) with
         | some j =>
           if 0 < j then pyStrip ((content.drop (i + 14)).take j) else []
         | none =>
           match findSub githubMarker (content.drop (i + 14)) with
           | some j =>
             if 0 < j then pyStrip ((content.drop (i + 14)).take j) else []
           | none => []) := by
  unfold extractRequirementsSection containsSub pyFindI pyFindFromI pySliceII
  cases hf : findSub reqMarker content with
  | none => simp
  | some i =>
    simp only [Option.isSome_some, if_true]
    have ht : ((i : Int) + (reqMarker.length : Int)).toNat = i + 14 := by
      simp [reqMarker]
      omega
    rw [ht]
    cases hs : findSub setupMarker (content.drop (i + 14)) with
    | some j =>
      have hne : ¬ ((j : Int) + ((i : Int) + (reqMarker.length : Int)) = -1) := by
        simp [reqMarker]; omega
      simp only [hne, if_false]
      by_cases hj : 0 < j
      · have hgt : (j : Int) + ((i : Int) + (reqMarker.length : Int)) >
            (i : Int) + (reqMarker.length : Int) := by
          simp [reqMarker]; omega
        have htake : ((j : Int) + ((i : Int) + (reqMarker.length : Int)) -
            ((i : Int) + (reqMarker.length : Int))).toNat = j := by omega
        simp only [hgt, if_true, htake, ht, hj]
      · have hj0 : j = 0 := by omega
        subst hj0
        have hngt : ¬ ((0 : Int) + ((i : Int) + (reqMarker.length : Int)) >
            (i : Int) + (reqMarker.length : Int)) := by omega
        simp [hngt]
    | none =>
      simp only [if_pos rfl]
      cases hg : findSub githubMarker (content.drop (i + 14)) with
      | none =>
        have hng : ¬ ((-1 : Int) > (i : Int) + (reqMarker.length : Int)) := by
          simp [reqMarker]
          omega
        simp [hng]
      | some j =>
        by_cases hj : 0 < j
        · have hgt : (j : Int) + ((i : Int) + (reqMarker.length : Int)) >
              (i : Int) + (reqMarker.length : Int) := by
            simp [reqMarker]; omega
          have htake : ((j : Int) + ((i : Int) + (reqMarker.length : Int)) -
              ((i : Int) + (reqMarker.length : Int))).toNat = j := by omega
          simp only [hgt, if_true, htake, ht, hj]
        · have hj0 : j = 0 := by omega
          subst hj0
          have hngt : ¬ ((0 : Int) + ((i : Int) + (reqMarker.length : Int)) >
              (i : Int) + (reqMarker.length : Int)) := by omega
          simp [hngt]

lemma extractSetup_eq (content : List Char) :
    extractSetupSection content =
      (match findSub setupMarker content with
       | none => []
       | some i =>
         match findSub githubMarker (content.drop (i + 20)) with
         | some j =>
           if 0 < j then pyStrip ((content.drop (i + 20)).take j) else []
         | none => []) := by
  unfold extractSetupSection containsSub pyFindI pyFindFromI pySliceII
  cases hf : findSub setupMarker content with
  | none => simp
  | some i =>
    simp only [Option.isSome_some, if_true]
    have ht : ((i : Int) + (setupMarker.length : Int)).toNat = i + 20 := by
      simp [setupMarker]
      omega
    rw [ht]
    cases hs : findSub githubMarker (content.drop (i + 20)) with
    | some j =>
      by_cases hj : 0 < j
      · have hgt : (j : Int) + ((i : Int) + (setupMarker.length : Int)) >
            (i : Int) + (setupMarker.length : Int) := by
          simp [setupMarker]; omega
        have htake : ((j : Int) + ((i : Int) + (setupMarker.length : Int)) -
            ((i : Int) + (setupMarker.length : Int))).toNat = j := by omega
        simp only [hgt, if_true, htake, ht, hj]
      · have hj0 : j = 0 := by omega
        subst hj0
        have hngt : ¬ ((0 : Int) + ((i : Int) + (setupMarker.length : Int)) >
            (i : Int) + (setupMarker.length : Int)) := by omega
        simp [hngt]
    | none =>
      have hng : ¬ ((-1 : Int) > (i : Int) + (setupMarker.length : Int)) := by
        simp [setupMarker]
        omega
      simp [hng]

lemma extractGithub_eq (content : List Char) :
    extractGithubSection content =
      (match findSub githubMarker content with
       | none => []
       | some i =>
         match findSub hostMarker (content.drop (i + 13)) with
         | some j =>
           if 0 < j then pyStrip ((content.drop (i + 13)).take j) else []
         | none => []) := by
  unfold extractGithubSection containsSub pyFindI pyFindFromI pySliceII
  cases hf : findSub githubMarker content with
  | none => simp
  | some i =>
    simp only [Option.isSome_some, if_true]
    have ht : ((i : Int) + (githubMarker.length : Int)).toNat = i + 13 := by
      simp [githubMarker]
      omega
    rw [ht]
    cases hs : findSub hostMarker (content.drop (i + 13)) with
    | some j =>
      by_cases hj : 0 < j
      · have hgt : (j : Int) + ((i : Int) + (githubMarker.length : Int)) >
            (i : Int) + (githubMarker.length : Int) := by
          simp [githubMarker]; omega
        have htake : ((j : Int) + ((i : Int) + (githubMarker.length : Int)) -
            ((i : Int) + (githubMarker.length : Int))).toNat = j := by omega
        simp only [hgt, if_true, htake, ht, hj]
      · have hj0 : j = 0 := by omega
        subst hj0
        have hngt : ¬ ((0 : Int) + ((i : Int) + (githubMarker.length : Int)) >
            (i : Int) + (githubMarker.length : Int)) := by omega
        simp [hngt]
    | none =>
      have hng : ¬ ((-1 : Int) > (i : Int) + (githubMarker.length : Int)) := by
        simp [githubMarker]
        omega
      simp [hng]

lemma extractHosting_eq (content : List Char) :
    extractHostingSection content =
      (match findSub hostMarker content with
       | none => []
       | some i => pyStrip (content.drop (i + 19))) := by
  unfold extractHostingSection containsSub pyFindI pySliceFrom
  cases hf : findSub hostMarker content with
  | none => simp
  | some i =>
    simp only [Option.isSome_some, if_true]
    have ht : ((i : Int) + (hostMarker.length : Int)).toNat = i + 19 := by
      simp [hostMarker]
      omega
    rw [ht]

lemma findSub_setup_after (b X : List Char) (hb : '[' ∉ b) :
    findSub setupMarker (b ++ (setupMarker ++ X)) = some b.length := by
  rw [findSub_shift_marker setupMarker ⟨'S', _, rfl⟩ b _ hb, findSub_self_append]
  simp

lemma findSub_github_after (c X : List Char) (hc : '[' ∉ c) :
    findSub githubMarker (c ++ (githubMarker ++ X)) = some c.length := by
  rw [findSub_shift_marker githubMarker ⟨'G', _, rfl⟩ c _ hc, findSub_self_append]
  simp

lemma findSub_host_after (d X : List Char) (hd : '[' ∉ d) :
    findSub hostMarker (d ++ (hostMarker ++ X)) = some d.length := by
  rw [findSub_shift_marker hostMarker ⟨'H', _, rfl⟩ d _ hd, findSub_self_append]
  simp

lemma findSub_github_none_after (c : List Char) (hc : '[' ∉ c) :
    findSub githubMarker c = none :=
  findSub_none_marker githubMarker ⟨'G', _, rfl⟩ c hc

lemma findSub_host_none_after (d : List Char) (hd : '[' ∉ d) :
    findSub hostMarker d = none :=
  findSub_none_marker hostMarker ⟨'H', _, rfl⟩ d hd

lemma findSub_setup_whole (b X : List Char) (hb : '[' ∉ b) :
    findSub setupMarker (reqMarker ++ (b ++ (setupMarker ++ X))) = some (b.length + 14) := by
  rw [findSub_setup_skip_req, findSub_setup_after b X hb]
  simp

lemma findSub_github_whole (b c X : List Char) (hb : '[' ∉ b) (hc : '[' ∉ c) :
    findSub githubMarker (reqMarker ++ (b ++ (setupMarker ++ (c ++ (githubMarker ++ X))))) =
      some (b.length + c.length + 34) := by
  rw [findSub_github_skip_req,
    findSub_shift_marker githubMarker ⟨'G', _, rfl⟩ b _ hb,
    findSub_github_skip_setup, findSub_github_after c X hc]
  simp only [Option.map_some', Option.some.injEq]
  omega

lemma findSub_github_none_whole (b c : List Char) (hb : '[' ∉ b) (hc : '[' ∉ c) :
    findSub githubMarker (reqMarker ++ (b ++ (setupMarker ++ c))) = none := by
  rw [findSub_github_skip_req,
    findSub_shift_marker githubMarker ⟨'G', _, rfl⟩ b _ hb,
    findSub_github_skip_setup, findSub_github_none_after c hc]
  rfl

lemma findSub_host_whole (b c d X : List Char) (hb : '[' ∉ b) (hc : '[' ∉ c) (hd : '[' ∉ d) :
    findSub hostMarker
        (reqMarker ++ (b ++ (setupMarker ++ (c ++ (githubMarker ++ (d ++ (hostMarker ++ X))))))) =
      some (b.length + c.length + d.length + 47) := by
  rw [findSub_host_skip_req,
    findSub_shift_marker hostMarker ⟨'H', _, rfl⟩ b _ hb,
    findSub_host_skip_setup,
    findSub_shift_marker hostMarker ⟨'H', _, rfl⟩ c _ hc,
    findSub_host_skip_github, findSub_host_after d X hd]
  simp only [Option.map_some', Option.some.injEq]
  omega

lemma findSub_host_none_wholeC (b c d : List Char) (hb : '[' ∉ b) (hc : '[' ∉ c) (hd : '[' ∉ d) :
    findSub hostMarker (reqMarker ++ (b ++ (setupMarker ++ (c ++ (githubMarker ++ d))))) = none := by
  rw [findSub_host_skip_req,
    findSub_shift_marker hostMarker ⟨'H', _, rfl⟩ b _ hb,
    findSub_host_skip_setup,
    findSub_shift_marker hostMarker ⟨'H', _, rfl⟩ c _ hc,
    findSub_host_skip_github, findSub_host_none_after d hd]
  rfl

lemma findSub_host_none_wholeA (b c : List Char) (hb : '[' ∉ b) (hc : '[' ∉ c) :
    findSub hostMarker (reqMarker ++ (b ++ (setupMarker ++ c))) = none := by
  rw [findSub_host_skip_req,
    findSub_shift_marker hostMarker ⟨'H', _, rfl⟩ b _ hb,
    findSub_host_skip_setup, findSub_host_none_after c hc]
  rfl

lemma drop_append_len : ∀ (l₁ l₂ : List Char) (n : Nat), (l₁ ++ l₂).drop (l₁.length + n) = l₂.drop n := by
  intro l₁
  induction l₁ with
  | nil => simp
  | cons x t ih =>
    intro l₂ n
    rw [List.cons_append, List.length_cons]
    have h : t.length + 1 + n = (t.length + n) + 1 := by omega
    rw [h, List.drop_succ_cons, ih]

lemma extractReq_sectioned (b X : List Char) (hb : '[' ∉ b) :
    extractRequirementsSection (reqMarker ++ (b ++ (setupMarker ++ X))) = pyStrip b := by
  have hd1 : (reqMarker ++ (b ++ (setupMarker ++ X))).drop (0 + 14) = b ++ (setupMarker ++ X) := by
    rw [show 0 + 14 = reqMarker.length from rfl, List.drop_left]
  rw [extractReq_eq, findSub_self_append]
  simp only
  rw [hd1, findSub_setup_after b X hb]
  simp only
  rw [List.take_left]
  by_cases hb0 : b = []
  · subst hb0; simp [pyStrip]
  · have : 0 < b.length := List.length_pos.mpr hb0
    simp [this]

lemma extractSetup_sectioned (b c Y : List Char) (hb : '[' ∉ b) (hc : '[' ∉ c) :
    extractSetupSection (reqMarker ++ (b ++ (setupMarker ++ (c ++ (githubMarker ++ Y))))) =
      pyStrip c := by
  have hd2 : (reqMarker ++ (b ++ (setupMarker ++ (c ++ (githubMarker ++ Y))))).drop
      ((b.length + 14) + 20) = c ++ (githubMarker ++ Y) := by
    have heq : (b.length + 14) + 20 = reqMarker.length + (b.length + (setupMarker.length + 0)) := by
      simp [reqMarker, setupMarker]
      omega
    rw [heq, drop_append_len, drop_append_len, drop_append_len, List.drop_zero]
  rw [extractSetup_eq, findSub_setup_whole b _ hb]
  simp only
  rw [hd2, findSub_github_after c Y hc]
  simp only
  rw [List.take_left]
  by_cases hc0 : c = []
  · subst hc0; simp [pyStrip]
  · have : 0 < c.length := List.length_pos.mpr hc0
    simp [this]

lemma extractSetup_noGithub (b c : List Char) (hb : '[' ∉ b) (hc : '[' ∉ c) :
    extractSetupSection (reqMarker ++ (b ++ (setupMarker ++ c))) = [] := by
  have hd2 : (reqMarker ++ (b ++ (setupMarker ++ c))).drop ((b.length + 14) + 20) = c := by
    have heq : (b.length + 14) + 20 = reqMarker.length + (b.length + (setupMarker.length + 0)) := by
      simp [reqMarker, setupMarker]
      omega
    rw [heq, drop_append_len, drop_append_len, drop_append_len, List.drop_zero]
  rw [extractSetup_eq, findSub_setup_whole b _ hb]
  simp only
  rw [hd2, findSub_github_none_after c hc]

lemma extractGithub_noHost (b c d : List Char) (hb : '[' ∉ b) (hc : '[' ∉ c) (hd : '[' ∉ d) :
    extractGithubSection (reqMarker ++ (b ++ (setupMarker ++ (c ++ (githubMarker ++ d))))) = [] := by
  have hd3 : (reqMarker ++ (b ++ (setupMarker ++ (c ++ (githubMarker ++ d))))).drop
      ((b.length + c.length + 34) + 13) = d := by
    have heq : (b.length + c.length + 34) + 13 =
        reqMarker.length + (b.length + (setupMarker.length + (c.length + (githubMarker.length + 0)))) := by
      simp [reqMarker, setupMarker, githubMarker]
      omega
    rw [heq, drop_append_len, drop_append_len, drop_append_len, drop_append_len,
      drop_append_len, List.drop_zero]
  rw [extractGithub_eq, findSub_github_whole b c _ hb hc]
  simp only
  rw [hd3, findSub_host_none_after d hd]

lemma extractGithub_absent (b c : List Char) (hb : '[' ∉ b) (hc : '[' ∉ c) :
    extractGithubSection (reqMarker ++ (b ++ (setupMarker ++ c))) = [] := by
  rw [extractGithub_eq, findSub_github_none_whole b c hb hc]

lemma extractGithub_withHost (b c d W : List Char) (hb : '[' ∉ b) (hc : '[' ∉ c) (hd : '[' ∉ d) :
    extractGithubSection
        (reqMarker ++ (b ++ (setupMarker ++ (c ++ (githubMarker ++ (d ++ (hostMarker ++ W))))))) =
      pyStrip d := by
  have hd3 : (reqMarker ++ (b ++ (setupMarker ++ (c ++ (githubMarker ++ (d ++ (hostMarker ++ W))))))).drop
      ((b.length + c.length + 34) + 13) = d ++ (hostMarker ++ W) := by
    have heq : (b.length + c.length + 34) + 13 =
        reqMarker.length + (b.length + (setupMarker.length + (c.length + (githubMarker.length + 0)))) := by
      simp [reqMarker, setupMarker, githubMarker]
      omega
    rw [heq, drop_append_len, drop_append_len, drop_append_len, drop_append_len,
      drop_append_len, List.drop_zero]
  rw [extractGithub_eq, findSub_github_whole b c _ hb hc]
  simp only
  rw [hd3, findSub_host_after d W hd]
  simp only
  rw [List.take_left]
  by_cases hd0 : d = []
  · subst hd0; simp [pyStrip]
  · have : 0 < d.length := List.length_pos.mpr hd0
    simp [this]

lemma extractHosting_noMarkerC (b c d : List Char) (hb : '[' ∉ b) (hc : '[' ∉ c) (hd : '[' ∉ d) :
    extractHostingSection (reqMarker ++ (b ++ (setupMarker ++ (c ++ (githubMarker ++ d))))) = [] := by
  rw [extractHosting_eq, findSub_host_none_wholeC b c d hb hc hd]

lemma extractHosting_noMarkerA (b c : List Char) (hb : '[' ∉ b) (hc : '[' ∉ c) :
    extractHostingSection (reqMarker ++ (b ++ (setupMarker ++ c))) = [] := by
  rw [extractHosting_eq, findSub_host_none_wholeA b c hb hc]

lemma extractHosting_withMarker (b c d e : List Char) (hb : '[' ∉ b) (hc : '[' ∉ c) (hd : '[' ∉ d) :
    extractHostingSection
        (reqMarker ++ (b ++ (setupMarker ++ (c ++ (githubMarker ++ (d ++ (hostMarker ++ e))))))) =
      pyStrip e := by
  have hd4 : (reqMarker ++ (b ++ (setupMarker ++ (c ++ (githubMarker ++ (d ++ (hostMarker ++ e))))))).drop
      ((b.length + c.length + d.length + 47) + 19) = e := by
    have heq : (b.length + c.length + d.length + 47) + 19 =
        reqMarker.length + (b.length + (setupMarker.length + (c.length +
          (githubMarker.length + (d.length + (hostMarker.length + 0)))))) := by
      simp [reqMarker, setupMarker, githubMarker, hostMarker]
      omega
    rw [heq, drop_append_len, drop_append_len, drop_append_len, drop_append_len,
      drop_append_len, drop_append_len, drop_append_len, List.drop_zero]
  rw [extractHosting_eq, findSub_host_whole b c d _ hb hc hd]
  simp only
  rw [hd4]

/-- C4 (amended): when a deployment response has the `[REQUIREMENTS]`,
`[SETUP_INSTRUCTIONS]` and `[GITHUB_PUSH]` sections with content but no
`[HOSTING_PLATFORMS]` marker, the requirements and setup fields are taken
from the response, while BOTH the hosting field AND the github field fall
back to their canned defaults: the github section ends only at a found
`[HOSTING_PLATFORMS]` marker, never at the end of the text. -/
theorem deployParse_missing_hosting (b c d : List Char)
    (hb : '[' ∉ b) (hc : '[' ∉ c) (hd : '[' ∉ d)
    (hsb : pyStrip b ≠ []) (hsc : pyStrip c ≠ []) :
    parseDeploymentOutput (reqMarker ++ (b ++ (setupMarker ++ (c ++ (githubMarker ++ d))))) =
      { requirements := pyStrip b
        setup_instructions := pyStrip c
        github_push := defaultGithubPush
        hosting_platforms := defaultHostingPlatforms } := by
  unfold parseDeploymentOutput
  rw [extractReq_sectioned b _ hb, extractSetup_sectioned b c d hb hc,
    extractGithub_noHost b c d hb hc hd, extractHosting_noMarkerC b c d hb hc hd]
  simp [hsb, hsc]

/-- Witness for C4 at a concrete sectioned response. -/
theorem deployParse_missing_hosting_witness :
    parseDeploymentOutput (reqMarker ++ (" flask ".data ++ (setupMarker ++
        (" pip install ".data ++ (githubMarker ++ " git push".data))))) =
      { requirements := pyStrip " flask ".data
        setup_instructions := pyStrip " pip install ".data
        github_push := defaultGithubPush
        hosting_platforms := defaultHostingPlatforms } :=
  deployParse_missing_hosting _ _ _ (by decide) (by decide) (by decide) (by decide) (by decide)

set_option maxRecDepth 4000 in
/-- Counterexample to C4 as stated: on a response whose github section has
content but which lacks the `[HOSTING_PLATFORMS]` marker, the parsed
`github_push` field is the canned default, not the section text from the
response. -/
theorem deployParse_missing_hosting_counterexample :
    (parseDeploymentOutput
        "[REQUIREMENTS] flask [SETUP_INSTRUCTIONS] pip install [GITHUB_PUSH] git push".data).github_push
      = defaultGithubPush ∧ defaultGithubPush ≠ "git push".data := by
  constructor
  · decide
  · decide

/-- C5 (amended): a found section runs to the next expected marker, where
the expected end markers are fixed per section (`[SETUP_INSTRUCTIONS]` or
else `[GITHUB_PUSH]` for requirements, `[GITHUB_PUSH]` for setup,
`[HOSTING_PLATFORMS]` for github); only the `[HOSTING_PLATFORMS]` section
runs to the end of the text.  A found section whose expected end marker is
missing is left empty and backfilled with its default, exactly like a
section whose own marker is missing. -/
theorem deployParse_section_bounds (b c d e : List Char)
    (hb : '[' ∉ b) (hc : '[' ∉ c) (hd : '[' ∉ d)
    (hsb : pyStrip b ≠ []) (hsc : pyStrip c ≠ []) (hsd : pyStrip d ≠ []) :
    parseDeploymentOutput (reqMarker ++ (b ++ (setupMarker ++ c))) =
      { requirements := pyStrip b
        setup_instructions := defaultSetup
        github_push := defaultGithubPush
        hosting_platforms := defaultHostingPlatforms } ∧
    parseDeploymentOutput
        (reqMarker ++ (b ++ (setupMarker ++ (c ++ (githubMarker ++ (d ++ (hostMarker ++ e))))))) =
      { requirements := pyStrip b
        setup_instructions := pyStrip c
        github_push := pyStrip d
        hosting_platforms := if pyStrip e = [] then defaultHostingPlatforms else pyStrip e } := by
  constructor
  · unfold parseDeploymentOutput
    rw [extractReq_sectioned b _ hb, extractSetup_noGithub b c hb hc,
      extractGithub_absent b c hb hc, extractHosting_noMarkerA b c hb hc]
    simp [hsb]
  · unfold parseDeploymentOutput
    rw [extractReq_sectioned b _ hb, extractSetup_sectioned b c _ hb hc,
      extractGithub_withHost b c d e hb hc hd, extractHosting_withMarker b c d e hb hc hd]
    simp [hsb, hsc, hsd]

/-- Witness for C5: a fully sectioned concrete response parses to its four
stripped section bodies, with the hosting section running to the end. -/
theorem deployParse_section_bounds_witness :
    parseDeploymentOutput (reqMarker ++ (" flask ".data ++ (setupMarker ++
        (" pip ".data ++ (githubMarker ++ (" git push ".data ++ (hostMarker ++ " heroku ".data))))))) =
      { requirements := pyStrip " flask ".data
        setup_instructions := pyStrip " pip ".data
        github_push := pyStrip " git push ".data
        hosting_platforms :=
          if pyStrip " heroku ".data = [] then defaultHostingPlatforms else pyStrip " heroku ".data } :=
  (deployParse_section_bounds " flask ".data " pip ".data " git push ".data " heroku ".data
    (by decide) (by decide) (by decide) (by decide) (by decide) (by decide)).2

set_option maxRecDepth 4000 in
/-- Counterexample to C5 as stated: `[SETUP_INSTRUCTIONS]` is found and no
later recognised marker occurs, yet the parsed field is the canned
default, not the text running to the end of the response. -/
theorem deployParse_section_bounds_counterexample :
    (parseDeploymentOutput "[SETUP_INSTRUCTIONS] do things".data).setup_instructions = defaultSetup ∧
    defaultSetup ≠ "do things".data := by
  constructor
  · decide
  · decide

/-! ## JSON values and a model of Python json.loads

`RequirementAnalysisAgent.analyze` extracts the span from the first brace
to the last brace of the model response and feeds it to `json.loads`
(requirement_agent.py, lines 152-162).  The grammar below follows the
Python json module: the four JSON whitespace characters, strings with the
standard escapes, numbers without leading zeros, and the Python extensions
NaN, Infinity and -Infinity.  Parsing runs on fuel ample for any input;
numeric lexemes are kept unevaluated because no caller inspects them. -/

inductive Json where
  | null
  | bool (b : Bool)
  | num (lexeme : List Char)
  | str (s : List Char)
  | arr (elems : List Json)
  | obj (fields : List (String × Json))

def jIsSpace (c : Char) : Bool :=
  c == ' ' || c == '\t' || c == '\n' || c == '\r'

def skipWs (l : List Char) : List Char :=
  l.dropWhile jIsSpace

def hexDigitVal (c : Char) : Option Nat :=
  if c.isDigit then some (c.toNat - 48)
  else if 'a' ≤ c ∧ c ≤ 'f' then some (c.toNat - 87)
  else if 'A' ≤ c ∧ c ≤ 'F' then some (c.toNat - 55)
  else none

def escChar (c : Char) : Option Char :=
  if c = '"' then some '"'
  else if c = '\\' then some '\\'
  else if c = '/' then some '/'
  else if c = 'b' then some (Char.ofNat 8)
  else if c = 'f' then some (Char.ofNat 12)
  else if c = 'n' then some '\n'
  else if c = 'r' then some '\r'
  else if c = 't' then some '\t'
  else none

def parseStringBody : Nat → List Char → Option (List Char × List Char)
  | 0, _ => none
  | _ + 1, [] => none
  | fuel + 1, c :: t =>
    if c = '"' then some ([], t)
    else if c = '\\' then
      match t with
      | [] => none
      | e :: t2 =>
        if e = 'u' then
          match t2 with
          | a :: b2 :: c2 :: d :: t3 =>
            match hexDigitVal a, hexDigitVal b2, hexDigitVal c2, hexDigitVal d with
            | some x1, some x2, some x3, some x4 =>
              (parseStringBody fuel t3).map fun sr =>
                (Char.ofNat (((x1 * 16 + x2) * 16 + x3) * 16 + x4) :: sr.1, sr.2)
            | _, _, _, _ => none
          | _ => none
        else
          match escChar e with
          | some ce => (parseStringBody fuel t2).map fun sr => (ce :: sr.1, sr.2)
          | none => none
    else if c.toNat < 32 then none
    else (parseStringBody fuel t).map fun sr => (c :: sr.1, sr.2)

def lexDigits1 (l : List Char) : Option (List Char × List Char) :=
  let ds := l.takeWhile Char.isDigit
  if ds = [] then none else some (ds, l.dropWhile Char.isDigit)

def lexIntPart : List Char → Option (List Char × List Char)
  | [] => none
  | c :: t =>
    if c = '0' then some (['0'], t)
    else if c.isDigit then some (c :: t.takeWhile Char.isDigit, t.dropWhile Char.isDigit)
    else none

def lexFrac (l : List Char) : List Char × List Char :=
  match l with
  | '.' :: t =>
    match lexDigits1 t with
    | some dr => ('.' :: dr.1, dr.2)
    | none => ([], l)
  | _ => ([], l)

def lexExp (l : List Char) : List Char × List Char :=
  match l with
  | c :: t =>
    if c = 'e' ∨ c = 'E' then
      match t with
      | s :: t2 =>
        if s = '+' ∨ s = '-' then
          match lexDigits1 t2 with
          | some dr => (c :: s :: dr.1, dr.2)
          | none => ([], l)
        else
          match lexDigits1 t with
          | some dr => (c :: dr.1, dr.2)
          | none => ([], l)
      | [] => ([], l)
    else ([], l)
  | [] => ([], l)

def lexNumber (l : List Char) : Option (List Char × List Char) :=
  match l with
  | '-' :: t =>
    match lexIntPart t with
    | none => none
    | some ir =>
      let f := lexFrac ir.2
      let e := lexExp f.2
      some ('-' :: ir.1 ++ f.1 ++ e.1, e.2)
  | _ =>
    match lexIntPart l with
    | none => none
    | some ir =>
      let f := lexFrac ir.2
      let e := lexExp f.2
      some (ir.1 ++ f.1 ++ e.1, e.2)

def lexConst (l : List Char) : Option (Json × List Char) :=
  if "null".data.isPrefixOf l then some (.null, l.drop 4)
  else if "true".data.isPrefixOf l then some (.bool true, l.drop 4)
  else if "false".data.isPrefixOf l then some (.bool false, l.drop 5)
  else if "NaN".data.isPrefixOf l then some (.num "NaN".data, l.drop 3)
  else if "Infinity".data.isPrefixOf l then some (.num "Infinity".data, l.drop 8)
  else if "-Infinity".data.isPrefixOf l then some (.num "-Infinity".data, l.drop 9)
  else none

mutual

def parseValue : Nat → List Char → Option (Json × List Char)
  | 0, _ => none
  | fuel + 1, l =>
    match l with
    | [] => none
    | c :: t =>
      if c = '\x7b' then parseObjRest fuel (skipWs t)
      else if c = '[' then parseArrRest fuel (skipWs t)
      else if c = '"' then
        (parseStringBody (t.length + 1) t).map fun sr => (Json.str sr.1, sr.2)
      else
        match lexConst l with
        | some vr => some vr
        | none => (lexNumber l).map fun dr => (Json.num dr.1, dr.2)

def parseObjRest : Nat → List Char → Option (Json × List Char)
  | 0, _ => none
  | fuel + 1, l =>
    match l with
    | '\x7d' :: t => some (Json.obj [], t)
    | _ => (parseMembers fuel l).map fun mr => (Json.obj mr.1, mr.2)

def parseMembers : Nat → List Char → Option (List (String × Json) × List Char)
  | 0, _ => none
  | fuel + 1, l =>
    match l with
    | '"' :: t =>
      match parseStringBody (t.length + 1) t with
      | none => none
      | some kr =>
        match skipWs kr.2 with
        | ':' :: r2 =>
          match parseValue fuel (skipWs r2) with
          | none => none
          | some vr =>
            match skipWs vr.2 with
            | ',' :: r4 =>
              match parseMembers fuel (skipWs r4) with
              | none => none
              | some mr => some ((String.mk kr.1, vr.1) :: mr.1, mr.2)
            | '\x7d' :: r4 => some ([(String.mk kr.1, vr.1)], r4)
            | _ => none
        | _ => none
    | _ => none

def parseArrRest : Nat → List Char → Option (Json × List Char)
  | 0, _ => none
  | fuel + 1, l =>
    match l with
    | ']' :: t => some (Json.arr [], t)
    | _ => (parseElems fuel l).map fun er => (Json.arr er.1, er.2)

def parseElems : Nat → List Char → Option (List Json × List Char)
  | 0, _ => none
  | fuel + 1, l =>
    match parseValue fuel l with
    | none => none
    | some vr =>
      match skipWs vr.2 with
      | ',' :: r2 =>
        match parseElems fuel (skipWs r2) with
        | none => none
        | some er => some (vr.1 :: er.1, er.2)
      | ']' :: r2 => some ([vr.1], r2)
      | _ => none

end

def jsonLoads (l : List Char) : Except Unit Json :=
  match parseValue (4 * (l.length + 1)) (skipWs l) with
  | some vr => if skipWs vr.2 = [] then Except.ok vr.1 else Except.error ()
  | none => Except.error ()


lemma parseObjRest_obj (fuel : Nat) (l : List Char) (v : Json) (r : List Char)
    (h : parseObjRest fuel l = some (v, r)) : ∃ kvs, v = Json.obj kvs := by
  cases fuel with
  | zero => exact absurd h (by simp [parseObjRest])
  | succ f =>
    simp only [parseObjRest.eq_def] at h
    split at h
    · exact ⟨[], by injection h with h1; injection h1 with h2 h3; exact h2.symm⟩
    · cases hm : parseMembers f l with
      | none => rw [hm] at h; exact absurd h (by simp)
      | some mr =>
        rw [hm] at h
        simp only [Option.map_some'] at h
        exact ⟨mr.1, by injection h with h1; injection h1 with h2; exact h2.symm⟩

lemma parseValue_brace_obj (fuel : Nat) (t : List Char) (v : Json) (r : List Char)
    (h : parseValue fuel ('\x7b' :: t) = some (v, r)) : ∃ kvs, v = Json.obj kvs := by
  cases fuel with
  | zero => exact absurd h (by simp [parseValue])
  | succ f =>
    rw [parseValue] at h
    simp only [if_pos rfl] at h
    exact parseObjRest_obj f (skipWs t) v r h

lemma jsonLoads_brace_obj (t : List Char) (v : Json) (h : jsonLoads ('\x7b' :: t) = .ok v) :
    ∃ kvs, v = Json.obj kvs := by
  unfold jsonLoads at h
  have hsk : skipWs ('\x7b' :: t) = '\x7b' :: t := rfl
  rw [hsk] at h
  cases hp : parseValue (4 * (('\x7b' :: t).length + 1)) ('\x7b' :: t) with
  | none => rw [hp] at h; exact absurd h (by simp)
  | some vr =>
    obtain ⟨v1, r1⟩ := vr
    rw [hp] at h
    simp only at h
    split at h
    · injection h with h1
      exact h1 ▸ parseValue_brace_obj _ t v1 r1 hp
    · exact absurd h (by simp)

lemma findSub_isPrefixOf (pat : List Char) :
    ∀ (l : List Char) (i : Nat), findSub pat l = some i → pat.isPrefixOf (l.drop i) = true := by
  intro l
  induction l with
  | nil =>
    intro i h
    rw [findSub] at h
    split at h
    · injection h with h1
      subst h1
      simp_all [List.isPrefixOf]
    · exact absurd h (by simp)
  | cons c t ih =>
    intro i h
    rw [findSub] at h
    split at h
    · injection h with h1
      subst h1
      rename_i hpre
      simpa using hpre
    · cases hf : findSub pat t with
      | none => rw [hf] at h; exact absurd h (by simp)
      | some j =>
        rw [hf] at h
        simp only [Option.map_some'] at h
        injection h with h1
        subst h1
        simpa [List.drop_succ_cons] using ih j hf

inductive PyErr where
  | valueError (msg : String)
  | attributeError
  | other (msg : String)
  deriving Repr, DecidableEq

def jsonSpan (content : List Char) : Option (List Char) :=
  let json_start := pyFindI content ['\x7b']
  let json_end := pyRFindChar content '\x7d' + 1
  if json_start ≥ 0 ∧ json_end > json_start then
    some (pySliceII content json_start json_end)
  else none

def parseFallback (content : List Char) : List (String × Json) :=
  [("functional_requirements", Json.arr [Json.str content]),
   ("non_functional_requirements", Json.arr []),
   ("assumptions",
     Json.arr [Json.str "Could not parse structured requirements - using raw input".data]),
   ("constraints", Json.arr []),
   ("clarifying_questions", Json.arr []),
   ("ambiguity_detected", Json.bool true),
   ("ambiguity_notes", Json.str "JSON parsing failed - requirements may be incomplete".data)]

def analyzeJsonDict (content : List Char) : Except PyErr (List (String × Json)) :=
  match jsonSpan content with
  | some s =>
    match jsonLoads s with
    | .ok (Json.obj kvs) => .ok kvs
    | .ok _ => .error .attributeError
    | .error _ => .ok (parseFallback content)
  | none => .ok (parseFallback content)

def dictGetD (kvs : List (String × Json)) (key : String) (dflt : Json) : Json :=
  match kvs.reverse.find? (fun kv => kv.fst == key) with
  | some kv => kv.snd
  | none => dflt

structure RequirementSet where
  functional_requirements : Json
  non_functional_requirements : Json
  assumptions : Json
  constraints : Json
  clarifying_questions : Json
  ambiguity_detected : Json
  ambiguity_notes : Json

def buildRequirementSet (kvs : List (String × Json)) : RequirementSet :=
  { functional_requirements := dictGetD kvs "functional_requirements" (Json.arr [])
    non_functional_requirements := dictGetD kvs "non_functional_requirements" (Json.arr [])
    assumptions := dictGetD kvs "assumptions" (Json.arr [])
    constraints := dictGetD kvs "constraints" (Json.arr [])
    clarifying_questions := dictGetD kvs "clarifying_questions" (Json.arr [])
    ambiguity_detected := dictGetD kvs "ambiguity_detected" (Json.bool false)
    ambiguity_notes := dictGetD kvs "ambiguity_notes" (Json.str []) }

def analyzeParseResult (content : List Char) : Except PyErr RequirementSet :=
  (analyzeJsonDict content).map buildRequirementSet

def spanParseFails (content : List Char) : Bool :=
  match jsonSpan content with
  | none => true
  | some s =>
    match jsonLoads s with
    | .ok _ => false
    | .error _ => true

lemma jsonSpan_head (content s : List Char) (h : jsonSpan content = some s) :
    ∃ t, s = '\x7b' :: t := by
  simp only [jsonSpan] at h
  split at h
  case isTrue hc =>
    injection h with h1
    cases hf : findSub ['\x7b'] content with
    | none =>
      simp only [pyFindI, hf] at hc
      exact absurd hc.1 (by norm_num)
    | some i =>
      have hpre := findSub_isPrefixOf _ content i hf
      cases hd : content.drop i with
      | nil => rw [hd] at hpre; simp [List.isPrefixOf] at hpre
      | cons c rest =>
        rw [hd] at hpre
        have hcc : '\x7b' = c := by simpa [List.isPrefixOf] using hpre
        simp only [pyFindI, hf] at h1 hc
        have hpos : 0 < (pyRFindChar content '\x7d' + 1 - (i : Int)).toNat := by
          obtain ⟨h2, h3⟩ := hc
          omega
        obtain ⟨m, hm⟩ := Nat.exists_eq_succ_of_ne_zero (Nat.pos_iff_ne_zero.mp hpos)
        rw [pySliceII] at h1
        have : (i : Int).toNat = i := by omega
        rw [this, hd, hm] at h1
        rw [List.take_succ_cons] at h1
        exact ⟨_, h1.symm.trans (by rw [hcc])⟩
  case isFalse => exact absurd h (by simp)

/-- C1: the Requirement-stage parse of any model response always succeeds
with a record carrying all seven RequirementSet fields (the only uncaught
error path, a successful JSON parse yielding a non-object, is impossible
because the parsed span starts with an opening brace), and the
Deployment-stage output parser always returns all four DeploymentConfig
fields populated and non-empty, defaults standing in for anything not
extracted. -/
theorem analyze_and_deployParse_total (content : List Char) :
    (∃ r : RequirementSet, analyzeParseResult content = Except.ok r) ∧
    (parseDeploymentOutput content).requirements ≠ [] ∧
    (parseDeploymentOutput content).setup_instructions ≠ [] ∧
    (parseDeploymentOutput content).github_push ≠ [] ∧
    (parseDeploymentOutput content).hosting_platforms ≠ [] := by
  refine ⟨?_, ?_, ?_, ?_, ?_⟩
  · unfold analyzeParseResult analyzeJsonDict
    cases hsp : jsonSpan content with
    | none => exact ⟨_, rfl⟩
    | some s =>
      obtain ⟨t, rfl⟩ := jsonSpan_head content s hsp
      simp only
      cases hl : jsonLoads ('\x7b' :: t) with
      | error e => simp only [hl]; exact ⟨_, rfl⟩
      | ok v =>
        obtain ⟨kvs, rfl⟩ := jsonLoads_brace_obj t v hl
        simp only [hl]
        exact ⟨_, rfl⟩
  · unfold parseDeploymentOutput
    by_cases h : extractRequirementsSection content = [] <;> simp [h]
    all_goals decide
  · unfold parseDeploymentOutput
    by_cases h : extractSetupSection content = [] <;> simp [h]
    all_goals decide
  · unfold parseDeploymentOutput
    by_cases h : extractGithubSection content = [] <;> simp [h]
    all_goals decide
  · unfold parseDeploymentOutput
    by_cases h : extractHostingSection content = [] <;> simp [h]
    all_goals decide


/-- C10: when the response has no brace-to-brace span, or the span is not
valid JSON, the Requirement-stage parse does not raise: it returns the
fallback record, whose functional_requirements is the one-element list
holding the entire raw response, whose ambiguity_detected is true, and
whose assumptions list is non-empty. -/
theorem analyzeParse_fallback_raw (content : List Char) (h : spanParseFails content = true) :
    ∃ r, analyzeParseResult content = Except.ok r ∧
      r.functional_requirements = Json.arr [Json.str content] ∧
      r.ambiguity_detected = Json.bool true ∧
      ∃ xs, r.assumptions = Json.arr xs ∧ xs ≠ [] := by
  have hfb : analyzeParseResult content = .ok (buildRequirementSet (parseFallback content)) := by
    unfold analyzeParseResult analyzeJsonDict
    unfold spanParseFails at h
    cases hsp : jsonSpan content with
    | none => rfl
    | some s =>
      rw [hsp] at h
      simp only at h ⊢
      cases hl : jsonLoads s with
      | error e => simp only [hl]; rfl
      | ok v => rw [hl] at h; simp at h
  refine ⟨buildRequirementSet (parseFallback content), hfb, rfl, rfl, ⟨_, rfl, by simp⟩⟩


set_option maxRecDepth 4000 in
/-- Witness for C10 at a concrete unparsable response. -/
theorem analyzeParse_fallback_raw_witness :
    ∃ r, analyzeParseResult "oops \x7bnot json\x7d end".data = Except.ok r ∧
      r.functional_requirements = Json.arr [Json.str "oops \x7bnot json\x7d end".data] ∧
      r.ambiguity_detected = Json.bool true ∧
      ∃ xs, r.assumptions = Json.arr xs ∧ xs ≠ [] :=
  analyzeParse_fallback_raw _ (by decide)

/-! ## Service invocation and the retry policy -/

/-- One observed behaviour of `self.agent.generate_reply`: it raises, or
returns `None`, or returns a response whose extracted content string is
`content` (for a dict response, `response.get("content", "")`; otherwise
`str(response)`). -/
inductive SvcResp where
  | raise (msg : String)
  | resp (content : Option (List Char))

/-- The observable result of a stage's invocation code: the returned
content or raised error, the number of service calls made, and the
durations passed to `time.sleep` in order. -/
structure InvokeOut where
  outcome : Except PyErr (List Char)
  calls : Nat
  sleeps : List Nat

/-- A service behaviour the retry policy treats as a failed attempt:
a raised error, a `None` response, or empty/whitespace-only content. -/
def isFailResp : SvcResp → Prop
  | .raise _ => True
  | .resp none => True
  | .resp (some c) => pyStrip c = []

/-- The retry loop of `DeploymentAgent.generate_deployment_config`
(deployment_agent.py, lines 158-202), one recursive step per `for`
iteration: `attempt` is the loop index and the second argument the
remaining iterations.  On the last attempt the in-`try` `raise` statements
are caught by the stage's own `except` clause and re-raised wrapped, which
is why every terminal error is the wrapping ValueError.  The base case is
the unreachable post-loop `if not content` raise. -/
def deployLoopAux (svc : Nat → SvcResp) (maxRetries : Nat) : Nat → Nat → InvokeOut
  | _, 0 =>
    ⟨.error (.valueError "Failed to generate deployment configuration after 3 attempts"), 0, []⟩
  | attempt, r + 1 =>
    match svc attempt with
    | .raise e =>
      if attempt < maxRetries - 1 then
        let k := deployLoopAux svc maxRetries (attempt + 1) r
        ⟨k.outcome, k.calls + 1, 2 ^ attempt :: k.sleeps⟩
      else
        ⟨.error (.valueError ("Deployment configuration API call failed after 3 attempts: " ++ e)),
          1, []⟩
    | .resp none =>
      if attempt < maxRetries - 1 then
        let k := deployLoopAux svc maxRetries (attempt + 1) r
        ⟨k.outcome, k.calls + 1, 2 ^ attempt :: k.sleeps⟩
      else
        ⟨.error (.valueError
          "Deployment configuration API call failed after 3 attempts: Agent returned None response after retries."),
          1, []⟩
    | .resp (some c) =>
      if pyStrip c = [] then
        if attempt < maxRetries - 1 then
          let k := deployLoopAux svc maxRetries (attempt + 1) r
          ⟨k.outcome, k.calls + 1, 2 ^ attempt :: k.sleeps⟩
        else
          ⟨.error (.valueError
            "Deployment configuration API call failed after 3 attempts: Agent returned empty content after retries."),
            1, []⟩
      else ⟨.ok c, 1, []⟩

/-- The Deployment-stage invocation: the loop with `max_retries = 3`. -/
def deployInvoke (svc : Nat → SvcResp) : InvokeOut :=
  deployLoopAux svc 3 0 3

/-- The Requirement-stage invocation (requirement_agent.py, lines
141-150): a single call, an immediate ValueError on a `None` response, no
retry, no empty-content check. -/
def requirementInvoke (svc : Nat → SvcResp) : InvokeOut :=
  match svc 0 with
  | .raise e => ⟨.error (.other e), 1, []⟩
  | .resp none =>
    ⟨.error (.valueError "Agent returned None response. Check API key and model configuration."),
      1, []⟩
  | .resp (some c) => ⟨.ok c, 1, []⟩

/-- The Documentation-stage invocation (documentation_agent.py, lines
194-203): a single call, an immediate ValueError on a `None` response, no
retry; the content, even empty, is returned as the documentation. -/
def documentationInvoke (svc : Nat → SvcResp) : InvokeOut :=
  match svc 0 with
  | .raise e => ⟨.error (.other e), 1, []⟩
  | .resp none =>
    ⟨.error (.valueError "Agent returned None response. Check API key and model configuration."),
      1, []⟩
  | .resp (some c) => ⟨.ok c, 1, []⟩

/-- The Test-stage invocation (test_agent.py, lines 202-207): a single
call, an immediate ValueError on a `None` response, no retry. -/
def testInvoke (svc : Nat → SvcResp) : InvokeOut :=
  match svc 0 with
  | .raise e => ⟨.error (.other e), 1, []⟩
  | .resp none =>
    ⟨.error (.valueError "Agent returned None response. Check API key and model configuration."),
      1, []⟩
  | .resp (some c) => ⟨.ok c, 1, []⟩

lemma deployLoop_fail_step (svc : Nat → SvcResp) (attempt r : Nat)
    (h : isFailResp (svc attempt)) (hlt : attempt < 3 - 1) :
    deployLoopAux svc 3 attempt (r + 1) =
      ⟨(deployLoopAux svc 3 (attempt + 1) r).outcome,
       (deployLoopAux svc 3 (attempt + 1) r).calls + 1,
       2 ^ attempt :: (deployLoopAux svc 3 (attempt + 1) r).sleeps⟩ := by
  cases hs : svc attempt with
  | raise e => simp [deployLoopAux, hs, hlt]
  | resp o =>
    cases o with
    | none => simp [deployLoopAux, hs, hlt]
    | some c =>
      have hc : pyStrip c = [] := by rw [hs] at h; exact h
      simp [deployLoopAux, hs, hlt, hc]

lemma deployLoop_fail_last (svc : Nat → SvcResp) (r : Nat) (h : isFailResp (svc 2)) :
    ∃ m, deployLoopAux svc 3 2 (r + 1) = ⟨.error m, 1, []⟩ := by
  cases hs : svc 2 with
  | raise e =>
    refine ⟨.valueError ("Deployment configuration API call failed after 3 attempts: " ++ e), ?_⟩
    simp [deployLoopAux, hs]
  | resp o =>
    cases o with
    | none =>
      refine ⟨.valueError
        "Deployment configuration API call failed after 3 attempts: Agent returned None response after retries.", ?_⟩
      simp [deployLoopAux, hs]
    | some c =>
      have hc : pyStrip c = [] := by rw [hs] at h; exact h
      refine ⟨.valueError
        "Deployment configuration API call failed after 3 attempts: Agent returned empty content after retries.", ?_⟩
      simp [deployLoopAux, hs, hc]

lemma deployLoop_success (svc : Nat → SvcResp) (attempt r : Nat) (c : List Char)
    (hs : svc attempt = .resp (some c)) (hc : pyStrip c ≠ []) :
    deployLoopAux svc 3 attempt (r + 1) = ⟨.ok c, 1, []⟩ := by
  simp [deployLoopAux, hs, hc]

lemma deployLoop_calls_pos (svc : Nat → SvcResp) (attempt r : Nat) :
    1 ≤ (deployLoopAux svc 3 attempt (r + 1)).calls := by
  cases hs : svc attempt with
  | raise e => by_cases hlt : attempt < 3 - 1 <;> simp [deployLoopAux, hs, hlt]
  | resp o =>
    cases o with
    | none => by_cases hlt : attempt < 3 - 1 <;> simp [deployLoopAux, hs, hlt]
    | some c =>
      by_cases hc : pyStrip c = [] <;> by_cases hlt : attempt < 3 - 1 <;>
        simp [deployLoopAux, hs, hlt, hc]

/-- C3: with `max_retries = 3`, if the service fails (raises, returns
null, or returns empty/whitespace content) on the first two attempts,
then: on a third-attempt success the call returns that content after
exactly three calls and exactly two backoff sleeps of durations 1 then 2
(2 ^ attempt); and on a third-attempt failure it raises after exactly
three calls, again with sleeps 1 then 2. -/
theorem deployInvoke_retry_policy (svc : Nat → SvcResp)
    (h0 : isFailResp (svc 0)) (h1 : isFailResp (svc 1)) :
    (∀ c, svc 2 = SvcResp.resp (some c) → pyStrip c ≠ [] →
      deployInvoke svc = ⟨Except.ok c, 3, [1, 2]⟩) ∧
    (isFailResp (svc 2) → ∃ m, deployInvoke svc = ⟨Except.error m, 3, [1, 2]⟩) := by
  constructor
  · intro c hc hne
    unfold deployInvoke
    rw [deployLoop_fail_step svc 0 2 h0 (by norm_num),
      deployLoop_fail_step svc 1 1 h1 (by norm_num),
      deployLoop_success svc 2 0 c hc hne]
    rfl
  · intro h2
    obtain ⟨m, hm⟩ := deployLoop_fail_last svc 0 h2
    refine ⟨m, ?_⟩
    unfold deployInvoke
    rw [deployLoop_fail_step svc 0 2 h0 (by norm_num),
      deployLoop_fail_step svc 1 1 h1 (by norm_num), hm]
    rfl

/-- Witness for C3: a service stub failing twice then succeeding. -/
theorem deployInvoke_retry_policy_witness :
    deployInvoke
        (fun n => if n < 2 then SvcResp.resp none else SvcResp.resp (some "ok response".data)) =
      ⟨Except.ok "ok response".data, 3, [1, 2]⟩ :=
  (deployInvoke_retry_policy _ (by exact trivial) (by exact trivial)).1 _ rfl (by decide)

/-- C6 (amended): the stages do NOT share the retry policy.  On a null
first response the Requirement, Documentation and Test stages each raise
immediately after exactly one service call with no sleeps, while only the
Deployment stage sleeps 2 ^ 0 = 1 time unit and calls the service
again. -/
theorem stageRetry_only_deployment (svc : Nat → SvcResp) (h : svc 0 = SvcResp.resp none) :
    requirementInvoke svc =
      ⟨Except.error (PyErr.valueError
        "Agent returned None response. Check API key and model configuration."), 1, []⟩ ∧
    documentationInvoke svc =
      ⟨Except.error (PyErr.valueError
        "Agent returned None response. Check API key and model configuration."), 1, []⟩ ∧
    testInvoke svc =
      ⟨Except.error (PyErr.valueError
        "Agent returned None response. Check API key and model configuration."), 1, []⟩ ∧
    (deployInvoke svc).sleeps.head? = some 1 ∧ 2 ≤ (deployInvoke svc).calls := by
  refine ⟨by simp [requirementInvoke, h], by simp [documentationInvoke, h],
    by simp [testInvoke, h], ?_, ?_⟩
  · unfold deployInvoke
    rw [deployLoop_fail_step svc 0 2 (by rw [h]; exact trivial) (by norm_num)]
    rfl
  · unfold deployInvoke
    rw [deployLoop_fail_step svc 0 2 (by rw [h]; exact trivial) (by norm_num)]
    have hpos := deployLoop_calls_pos svc 1 1
    norm_num at hpos ⊢
    omega

/-- Witness for C6 at the constant-null service stub. -/
theorem stageRetry_only_deployment_witness :
    requirementInvoke (fun _ => SvcResp.resp none) =
      ⟨Except.error (PyErr.valueError
        "Agent returned None response. Check API key and model configuration."), 1, []⟩ ∧
    documentationInvoke (fun _ => SvcResp.resp none) =
      ⟨Except.error (PyErr.valueError
        "Agent returned None response. Check API key and model configuration."), 1, []⟩ ∧
    testInvoke (fun _ => SvcResp.resp none) =
      ⟨Except.error (PyErr.valueError
        "Agent returned None response. Check API key and model configuration."), 1, []⟩ ∧
    (deployInvoke (fun _ => SvcResp.resp none)).sleeps.head? = some 1 ∧
    2 ≤ (deployInvoke (fun _ => SvcResp.resp none)).calls :=
  stageRetry_only_deployment _ rfl

/-- Counterexample to C6 as stated: under the same always-null service,
the Documentation stage performs no sleep and no retry (one call), while
the Deployment stage sleeps [1, 2] across three calls — the policy is not
applied identically by every stage. -/
theorem stageRetry_uniformity_counterexample :
    (documentationInvoke (fun _ => SvcResp.resp none)).sleeps = [] ∧
    (documentationInvoke (fun _ => SvcResp.resp none)).calls = 1 ∧
    (deployInvoke (fun _ => SvcResp.resp none)).sleeps = [1, 2] ∧
    (deployInvoke (fun _ => SvcResp.resp none)).calls = 3 := by
  refine ⟨rfl, rfl, rfl, rfl⟩

/-- C7 (amended): the Documentation stage raises a ValueError when the
service response is null and propagates a raised service error, but an
empty content string is NOT converted into a failure: it is returned
as-is as the documentation. -/
theorem documentation_null_vs_empty (svc : Nat → SvcResp) :
    (svc 0 = SvcResp.resp none →
      documentationInvoke svc =
        ⟨Except.error (PyErr.valueError
          "Agent returned None response. Check API key and model configuration."), 1, []⟩) ∧
    (∀ e, svc 0 = SvcResp.raise e →
      (documentationInvoke svc).outcome = Except.error (PyErr.other e)) ∧
    (∀ c, svc 0 = SvcResp.resp (some c) → (documentationInvoke svc).outcome = Except.ok c) := by
  refine ⟨fun h => by simp [documentationInvoke, h],
    fun e h => by simp [documentationInvoke, h],
    fun c h => by simp [documentationInvoke, h]⟩

/-- Witness for C7: the null stub fails, the empty-content stub
returns the empty documentation. -/
theorem documentation_null_vs_empty_witness :
    (documentationInvoke (fun _ => SvcResp.resp none)).outcome =
      Except.error (PyErr.valueError
        "Agent returned None response. Check API key and model configuration.") ∧
    (documentationInvoke (fun _ => SvcResp.resp (some []))).outcome = Except.ok [] :=
  ⟨by rw [(documentation_null_vs_empty (fun _ => SvcResp.resp none)).1 rfl],
   (documentation_null_vs_empty (fun _ => SvcResp.resp (some []))).2.2 [] rfl⟩

/-- Counterexample to C7 as stated: on empty content the Documentation
stage succeeds with an empty result instead of failing. -/
theorem documentation_empty_counterexample :
    (documentationInvoke (fun _ => SvcResp.resp (some []))).outcome = Except.ok [] := rfl

/-! ## Requirement-stage prompt composition with pipeline context -/

/-- The template text before the interpolated context section
(requirement_agent.py, line 110). -/
def reqPromptHeader : List Char :=
  "Analyze the following user requirement and convert vague natural language into structured, actionable software requirements.\n".data

/-- The template text between the context section and the user input
(lines 111-113). -/
def reqPromptMiddle : List Char :=
  "\nUSER REQUIREMENT:\n".data

/-- The template text after the user input (lines 114-137). -/
def reqPromptTask : List Char :=
  "\n\nTASK:\n1. **Detect Ambiguity**: Identify vague terms, missing details, unclear specifications\n2. **Generate Clarifying Questions**: Create specific questions to resolve any ambiguity (even if simulated/answered automatically)\n3. **Convert to Structured Requirements**: Transform the requirement into clear, testable requirements\n\nOUTPUT FORMAT:\nProvide your analysis as a JSON object with this exact structure:\n\x7b\n    \"functional_requirements\": [\"specific, testable functional requirements\"],\n    \"non_functional_requirements\": [\"non-functional requirements (performance, security, usability, scalability, etc.)\"],\n    \"assumptions\": [\"assumptions made when requirements are vague or incomplete\"],\n    \"constraints\": [\"constraints identified (technical, business, time, platform, etc.)\"],\n    \"clarifying_questions\": [\"specific questions to resolve ambiguity - generate even if simulated\"],\n    \"ambiguity_detected\": true/false,\n    \"ambiguity_notes\": \"description of detected ambiguities and how assumptions were made to resolve them\"\n\x7d\n\nIMPORTANT:\n- If ambiguity is detected, generate clarifying questions AND make reasonable assumptions\n- Document all assumptions clearly\n- Ensure functional requirements are specific and testable\n- Include non-functional requirements even if not explicitly mentioned (make reasonable assumptions)\n- Be thorough and comprehensive".data

/-- The previous run record read by analyze: its `requirements` key (the
prior RequirementSet, `none` standing for an absent key or empty dict) and
its `code` key. -/
structure PrevResults where
  requirements : Option RequirementSet
  code : List Char

/-- The context dictionary as read by `analyze` (lines 92-94). -/
structure PipelineContext where
  is_active : Bool
  previous_prompts : List (List Char)
  previous_results : Option PrevResults

/-- The closing text of the context section (line 108). -/
def followupTrailer : List Char :=
  "\nThis is a follow-up request. Please update/modify the requirements based on the new input while maintaining consistency with the previous context.\n".data

/-- Python `sep.join(xs)` over decoded values: succeeds only when every
item is a string, raising TypeError otherwise. -/
def pyJoinStrs (sep : List Char) (xs : List Json) : Except PyErr (List Char) :=
  (xs.mapM fun j =>
    match j with
    | Json.str s => Except.ok s
    | _ => Except.error (PyErr.other "TypeError: sequence item: expected str instance")).map
    (List.intercalate sep)

/-- `', '.join(prev_reqs.get('functional_requirements', [])[:3])` (line
103): a list is sliced then joined; a string is sliced to its first three
characters, which join as one-character strings; any other value fails to
slice. -/
def jsonTake3Join : Json → Except PyErr (List Char)
  | Json.arr xs => pyJoinStrs ", ".data (xs.take 3)
  | Json.str s => pyJoinStrs ", ".data ((s.take 3).map fun ch => Json.str [ch])
  | _ => Except.error (PyErr.other "TypeError: value is not subscriptable")

/-- Line 99: `Previous prompt(s): ` followed by the last previous
prompt, added only when the prompt list is non-empty. -/
def prevPromptLine (ps : List (List Char)) : List Char :=
  match ps.getLast? with
  | some p => "Previous prompt(s): ".data ++ (p ++ "\n".data)
  | none => []

/-- Lines 101-103: the functional-requirements summary line, added only
when the previous requirements record is present and truthy. -/
def prevReqsLine : Option RequirementSet → Except PyErr (List Char)
  | none => Except.ok []
  | some rset =>
    (jsonTake3Join rset.functional_requirements).map fun s =>
      "Previous functional requirements: ".data ++ (s ++ "\n".data)

/-- Lines 104-107: the code-summary line, truncating code beyond 200
characters. -/
def codeSummaryLine (prev_code : List Char) : List Char :=
  if prev_code = [] then []
  else
    "Previous code summary: ".data ++
      ((if 200 < prev_code.length then prev_code.take 200 ++ "...".data else prev_code) ++
        "\n".data)

/-- Lines 91-108: the `PREVIOUS CONTEXT` section, built only when the
context is present, active, and has previous prompts or results. -/
def buildContextSection (context : Option PipelineContext) : Except PyErr (List Char) :=
  match context with
  | none => Except.ok []
  | some ctx =>
    if ctx.is_active = true then
      if ctx.previous_prompts ≠ [] ∨ ctx.previous_results.isSome then
        match ctx.previous_results with
        | none =>
          Except.ok ("\n\nPREVIOUS CONTEXT:\n".data ++
            (prevPromptLine ctx.previous_prompts ++ followupTrailer))
        | some pr =>
          (prevReqsLine pr.requirements).map fun reqLine =>
            "\n\nPREVIOUS CONTEXT:\n".data ++
              (prevPromptLine ctx.previous_prompts ++
                (reqLine ++ (codeSummaryLine pr.code ++ followupTrailer)))
      else Except.ok []
    else Except.ok []

/-- Lines 110-137: the composed Requirement-stage prompt. -/
def composeRequirementPrompt (user_input : List Char) (context : Option PipelineContext) :
    Except PyErr (List Char) :=
  (buildContextSection context).map fun cs =>
    reqPromptHeader ++ (cs ++ (reqPromptMiddle ++ (user_input ++ reqPromptTask)))

/-- A list occurs as a substring of any text built around it. -/
lemma containsSub_sandwich (a m b : List Char) : containsSub (a ++ (m ++ b)) m = true := by
  unfold containsSub
  induction a with
  | nil =>
    simp only [List.nil_append]
    rw [show m ++ b = m ++ b from rfl, findSub_self_append]
    rfl
  | cons c t ih =>
    simp only [List.cons_append]
    rw [findSub]
    by_cases hp : m.isPrefixOf (c :: (t ++ (m ++ b))) = true
    · simp [hp]
    · simp only [hp, Bool.false_eq_true, if_false, Option.isSome_map]
      simpa using ih

lemma containsSub_of_eq (l a m b : List Char) (h : l = a ++ (m ++ b)) :
    containsSub l m = true := by
  rw [h]
  exact containsSub_sandwich a m b

/-- C9: when the context is active and carries the previous prompt and
the previous RequirementSet, the composed Requirement-stage prompt
contains the previous prompt text and the summary line holding the joined
first functional requirements of the previous run. -/
theorem requirementPrompt_carries_context (input p summary : List Char)
    (ctx : PipelineContext) (pr : PrevResults) (rset : RequirementSet)
    (hact : ctx.is_active = true)
    (hlast : ctx.previous_prompts.getLast? = some p)
    (hres : ctx.previous_results = some pr)
    (hreq : pr.requirements = some rset)
    (hjoin : jsonTake3Join rset.functional_requirements = Except.ok summary) :
    ∃ prompt, composeRequirementPrompt input (some ctx) = Except.ok prompt ∧
      containsSub prompt p = true ∧
      containsSub prompt ("Previous functional requirements: ".data ++ summary) = true := by
  have hne : ctx.previous_prompts ≠ [] := by
    intro h0
    rw [h0] at hlast
    simp at hlast
  have hcs : buildContextSection (some ctx) =
      Except.ok ("\n\nPREVIOUS CONTEXT:\n".data ++
        (("Previous prompt(s): ".data ++ (p ++ "\n".data)) ++
          (("Previous functional requirements: ".data ++ (summary ++ "\n".data)) ++
            (codeSummaryLine pr.code ++ followupTrailer)))) := by
    simp [buildContextSection, prevReqsLine, prevPromptLine, hact, hres, hreq, hjoin, hlast,
      hne, Except.map]
  refine ⟨_, by unfold composeRequirementPrompt; rw [hcs]; rfl, ?_, ?_⟩
  · apply containsSub_of_eq _
      (reqPromptHeader ++ ("\n\nPREVIOUS CONTEXT:\n".data ++ "Previous prompt(s): ".data)) p
      ("\n".data ++
        (("Previous functional requirements: ".data ++ (summary ++ "\n".data)) ++
          ((codeSummaryLine pr.code ++ followupTrailer) ++
            (reqPromptMiddle ++ (input ++ reqPromptTask)))))
    simp [List.append_assoc]
  · apply containsSub_of_eq _
      (reqPromptHeader ++ ("\n\nPREVIOUS CONTEXT:\n".data ++
        ("Previous prompt(s): ".data ++ (p ++ "\n".data))))
      ("Previous functional requirements: ".data ++ summary)
      ("\n".data ++
        ((codeSummaryLine pr.code ++ followupTrailer) ++
          (reqPromptMiddle ++ (input ++ reqPromptTask))))
    simp [List.append_assoc]

/-- Witness for C9 at a concrete two-run follow-up context. -/
theorem requirementPrompt_carries_context_witness :
    ∃ prompt,
      composeRequirementPrompt "also support multiplication".data
          (some { is_active := true
                  previous_prompts := ["build a calculator".data]
                  previous_results := some
                    { requirements := some
                        { functional_requirements :=
                            Json.arr [Json.str "add two numbers".data, Json.str "subtract".data]
                          non_functional_requirements := Json.arr []
                          assumptions := Json.arr []
                          constraints := Json.arr []
                          clarifying_questions := Json.arr []
                          ambiguity_detected := Json.bool false
                          ambiguity_notes := Json.str [] }
                      code := "print(1)".data } }) = Except.ok prompt ∧
      containsSub prompt "build a calculator".data = true ∧
      containsSub prompt
        ("Previous functional requirements: ".data ++ "add two numbers, subtract".data) = true :=
  requirementPrompt_carries_context _ _ _ _ _ _ rfl rfl rfl rfl rfl
